import Mathlib

/-!
Verification of the OSCAR test-automator repository.

Shallow embedding of the Python sources:
- `config_loader.py` (`ConfigLoader.get_all_sites`, `ConfigLoader.get_sites_by_category`)
- `browser_controller.py` (`BrowserController.visit_site`,
  `BrowserController._simulate_user_behavior`, `BrowserController.stop`)
- `test_automator.py` (`TestAutomator._parse_time_format`, `TestAutomator.run`)

Strings that the Python code inspects character by character are modelled as
`List Char`; the external browser driver is modelled by an oracle listing the
outcome of each `driver.get` call, and wall-clock time by explicit rational
durations attached to each effect.
-/

/-! ### Character-level helpers (Python `str.strip`, `str.lower`, `str.isdigit`) -/

/-- ASCII whitespace recognised by Python `str.strip` / the regex class `\s`. -/
def pyIsSpace (c : Char) : Bool :=
  c.toNat = 32 || c.toNat = 9 || c.toNat = 10 || c.toNat = 13 || c.toNat = 11 || c.toNat = 12

/-- ASCII decimal digit, the regex class `\d` and Python `str.isdigit` on ASCII input. -/
def isDigitChar (c : Char) : Bool :=
  48 ≤ c.toNat && c.toNat ≤ 57

/-- Python `str.lower` on one ASCII character. -/
def lowerChar (c : Char) : Char :=
  if 65 ≤ c.toNat && c.toNat ≤ 90 then Char.ofNat (c.toNat + 32) else c

/-- Python `str.strip`: drop leading and trailing whitespace. -/
def pyStrip (cs : List Char) : List Char :=
  ((cs.dropWhile pyIsSpace).reverse.dropWhile pyIsSpace).reverse

/-- Numeric value of a digit string, as computed by Python `int(...)`. -/
def digitsVal (cs : List Char) : Nat :=
  cs.foldl (fun a c => a * 10 + (c.toNat - 48)) 0

/-! ### `ConfigLoader` (config_loader.py) -/

/-- The two reserved category names skipped by `get_all_sites` (and by
`get_categories` / `get_category_count`). -/
def SYSTEM_CATEGORIES : List String :=
  ["Browser Internal", "System/Security"]

/-- The eleven internal-page marker substrings used by `get_all_sites`. -/
def ALL_SITES_MARKERS : List String :=
  ["browser_internal", "browser_new_tab", "chrome_internal",
   "edge_internal", "firefox_internal", "chrome_extension",
   "firefox_extension", "loginwindow", "screensaver",
   "lock_screen", "system_security"]

/-- The seven marker substrings used by `get_sites_by_category`. -/
def CATEGORY_MARKERS : List String :=
  ["browser_internal", "browser_new_tab", "chrome_internal",
   "edge_internal", "firefox_internal", "chrome_extension",
   "firefox_extension"]

/-- Python substring test `pat in s` on character lists. -/
def isSubstringOf (pat : List Char) : List Char → Bool
  | [] => pat.isEmpty
  | c :: rest => pat.isPrefixOf (c :: rest) || isSubstringOf pat rest

/-- Python `marker in url.lower()` for any marker in the given list. -/
def hasMarker (markers : List String) (url : String) : Bool :=
  markers.any (fun m => isSubstringOf m.toList (url.toList.map lowerChar))

/-- Embeds `ConfigLoader.get_all_sites`: all `(url, category)` pairs, skipping the two
system categories and every URL containing one of the eleven markers.
`browser_categories` is modelled as an insertion-ordered association list. -/
def get_all_sites (cats : List (String × List String)) : List (String × String) :=
  cats.flatMap (fun p =>
    if p.1 ∈ SYSTEM_CATEGORIES then []
    else (p.2.filter (fun u => !hasMarker ALL_SITES_MARKERS u)).map (fun u => (u, p.1)))

/-- Embeds `ConfigLoader.get_sites_by_category`: the URLs of one category, filtered by
the seven browser-internal markers only (the category itself is not checked
against the reserved names). -/
def get_sites_by_category (cats : List (String × List String)) (name : String) : List String :=
  match cats.lookup name with
  | none => []
  | some urls => urls.filter (fun u => !hasMarker CATEGORY_MARKERS u)

/-- The configuration of the end-to-end scenario in the spec. -/
def demoConfig : List (String × List String) :=
  [("Dev", ["a.com", "b.com"]), ("Browser Internal", ["x_internal"])]

/-- A configuration whose reserved category holds a lock-screen-marker URL. -/
def reservedConfig : List (String × List String) :=
  [("System/Security", ["loginwindow"])]

/-! ### `TestAutomator._parse_time_format` (test_automator.py) -/

/-- The regex `^(\d+)\s*([smh]?)$` applied to an already stripped, lowered
string: maximal leading digit run, optional whitespace, optional unit. -/
def matchTimeRe (cs : List Char) : Option (Nat × Option Char) :=
  let ds := cs.takeWhile isDigitChar
  let rest := (cs.dropWhile isDigitChar).dropWhile pyIsSpace
  if ds.isEmpty then none
  else
    match rest with
    | [] => some (digitsVal ds, none)
    | [c] =>
        if c = 's' || c = 'm' || c = 'h' then some (digitsVal ds, some c) else none
    | _ => none

/-- Embeds `TestAutomator._parse_time_format`, returning minutes, `none` for the
`ValueError` raised on an invalid format. -/
def parse_time_format (s : List Char) : Option Nat :=
  let t := (pyStrip s).map lowerChar
  if !t.isEmpty && t.all isDigitChar then
    some (digitsVal t)
  else
    match matchTimeRe t with
    | none => none
    | some (v, u) =>
        if u = some 's' then some (max 1 (v / 60))
        else if u = some 'h' then some (v * 60)
        else some v

/-! ### `BrowserController` (browser_controller.py) -/

/-- The constant `BrowserController.MAX_RETRIES`. -/
def MAX_RETRIES : Nat := 2

/-- The constant `BrowserController.RETRY_DELAY` in seconds. -/
def RETRY_DELAY : ℚ := 8

/-- Outcome of one `driver.get` + ready-state wait, as raised by the driver:
normal completion, `TimeoutException`, `WebDriverException`, or any other
exception. -/
inductive NavOutcome
  | ok
  | timeoutExn
  | webDriverExn (msg : String)
  | otherExn (msg : String)
deriving DecidableEq

/-- One entry of the driver oracle: the outcome of a navigation attempt and the
wall-clock seconds it consumed. -/
structure DriverStep where
  outcome : NavOutcome
  navSeconds : ℚ
deriving DecidableEq

/-- Observable side effects of `visit_site`: a `driver.get` call, a fixed
backoff sleep between attempts, and the dwell on a successfully loaded page. -/
inductive Effect
  | navGet (url : String)
  | retrySleep (secs : ℚ)
  | dwell (secs : ℚ)
deriving DecidableEq

/-- Whether an effect is the dwell on a loaded page. -/
def isDwellEffect : Effect → Bool
  | Effect.dwell _ => true
  | _ => false

/-- Whether an effect is a `driver.get` call. -/
def isNavEffect : Effect → Bool
  | Effect.navGet _ => true
  | _ => false

/-- Values stored in the Python result dictionaries. -/
inductive PyVal
  | s (v : String)
  | n (v : Nat)
  | q (v : ℚ)
deriving DecidableEq

/-- A Python dictionary with string keys, in insertion order. -/
abbrev PyDict := List (String × PyVal)

/-- The dictionary returned by `visit_site` when the driver is not started. -/
def notStartedDict (url : String) : PyDict :=
  [("url", PyVal.s url), ("status", PyVal.s "error"),
   ("error", PyVal.s "Browser not started"), ("duration", PyVal.q 0)]

/-- The dictionary returned by `visit_site` on a successful attempt. -/
def successDict (url : String) (elapsed : ℚ) (attempts : Nat) : PyDict :=
  [("url", PyVal.s url), ("status", PyVal.s "success"),
   ("duration", PyVal.q elapsed), ("attempts", PyVal.n attempts)]

/-- The dictionary returned by `visit_site` when the final attempt times out. -/
def timeoutDict (url : String) (attempts : Nat) : PyDict :=
  [("url", PyVal.s url), ("status", PyVal.s "timeout"),
   ("error", PyVal.s "Page load timeout after retries"),
   ("duration", PyVal.q 0), ("attempts", PyVal.n attempts)]

/-- The dictionary returned by `visit_site` on a driver-level or unexpected
error. -/
def errorDict (url : String) (msg : String) (attempts : Nat) : PyDict :=
  [("url", PyVal.s url), ("status", PyVal.s "error"), ("error", PyVal.s msg),
   ("duration", PyVal.q 0), ("attempts", PyVal.n attempts)]

/-- Python `url.startswith(t)` on the UTF-8 character sequence. -/
def startsWithStr (s pre : String) : Bool :=
  pre.toList.isPrefixOf s.toList

/-- The scheme normalization at the top of `visit_site`:
`if not url.startswith(('http://', 'https://')): url = f'https://...'`. -/
def ensureScheme (url : String) : String :=
  if startsWithStr url "http://" || startsWithStr url "https://" then url
  else "https://" ++ url

/-- The `for attempt in range(MAX_RETRIES + 1)` loop of `visit_site`.
`attempt` is the 0-based loop index, `fuel` the remaining iterations
(`MAX_RETRIES + 1 - attempt`), `steps` the driver oracle consumed one entry
per attempt, `dwellTime` the wall-clock length of the dwell phase. -/
def visit_attempts (url : String) (dwellTime : ℚ) :
    Nat → Nat → List DriverStep → List Effect × PyDict
  | _, 0, _ => ([], [])
  | attempt, fuel + 1, steps =>
    let st := steps.headD ⟨NavOutcome.otherExn "no driver response", 0⟩
    match st.outcome with
    | NavOutcome.ok =>
        ([Effect.navGet url, Effect.dwell dwellTime],
         successDict url (st.navSeconds + dwellTime) (attempt + 1))
    | NavOutcome.timeoutExn =>
        if attempt < MAX_RETRIES then
          let r := visit_attempts url dwellTime (attempt + 1) fuel steps.tail
          (Effect.navGet url :: Effect.retrySleep RETRY_DELAY :: r.1, r.2)
        else
          ([Effect.navGet url], timeoutDict url (attempt + 1))
    | NavOutcome.webDriverExn m =>
        if attempt < MAX_RETRIES then
          let r := visit_attempts url dwellTime (attempt + 1) fuel steps.tail
          (Effect.navGet url :: Effect.retrySleep RETRY_DELAY :: r.1, r.2)
        else
          ([Effect.navGet url], errorDict url m (attempt + 1))
    | NavOutcome.otherExn m =>
        ([Effect.navGet url], errorDict url m (attempt + 1))

/-- The scroll loop of `_simulate_user_behavior`
(`while time.time() < end_time and scroll_count < max_scrolls`).
`fuel` is `max_scrolls - scroll_count`, `elapsed` the time already spent in the
simulation, `dur` the dwell budget, `scripts` the oracle for the scroll
`execute_script` calls (`some msg` = the call raises), `pauses` the values
drawn by `random.uniform(2, 5)`.  Returns the time spent and the pending
exception, if one was raised. -/
def simLoop : Nat → ℚ → ℚ → List (Option String) → List ℚ → ℚ × Option String
  | 0, elapsed, _, _, _ => (elapsed, none)
  | fuel + 1, elapsed, dur, scripts, pauses =>
    if elapsed < dur then
      match scripts.headD none with
      | some m => (elapsed, some m)
      | none =>
          let p := pauses.headD 2
          let slept := min p (dur - elapsed)
          let e2 := elapsed + slept
          if dur ≤ e2 then (e2, none)
          else simLoop fuel e2 dur scripts.tail pauses.tail
    else (elapsed, none)

/-- Embeds `remaining = end_time - time.time(); if remaining > 0: time.sleep(remaining)`:
the total time after sleeping out the remaining dwell budget. -/
def topUp (dur e : ℚ) : ℚ :=
  if 0 < dur - e then e + (dur - e) else e

/-- The `try` body of `_simulate_user_behavior`: the two page-metric
`execute_script` calls, the scroll loop, then the sleep for the remaining
time.  The first component is the time slept, the second the exception that
escaped the body, if any. -/
def sim_body (dur : ℚ) (scripts : List (Option String)) (pauses : List ℚ) :
    ℚ × Option String :=
  match scripts.headD none with
  | some m => (0, some m)
  | none =>
    match scripts.tail.headD none with
    | some m => (0, some m)
    | none =>
        let r := simLoop 5 0 dur scripts.tail.tail pauses
        match r.2 with
        | some m => (r.1, some m)
        | none => (topUp dur r.1, none)

/-- Embeds `BrowserController._simulate_user_behavior`: run the body; on an exception,
fall back to a plain sleep for the remaining time.  Returns the total
wall-clock time consumed. -/
def simulate_user_behavior (dur : ℚ) (scripts : List (Option String))
    (pauses : List ℚ) : ℚ :=
  let r := sim_body dur scripts pauses
  match r.2 with
  | none => r.1
  | some _ => topUp dur r.1

/-- Embeds `BrowserController.visit_site`.  `driverStarted` models `self.driver`
being non-`None`, `simulateBehavior` the `simulate_behavior` flag, `steps`
the driver oracle, `scripts`/`pauses` the oracles of the behavior simulation.
Returns the effect trace and the result dictionary. -/
def visit_site (driverStarted simulateBehavior : Bool) (url : String)
    (durationSeconds : ℚ) (steps : List DriverStep)
    (scripts : List (Option String)) (pauses : List ℚ) :
    List Effect × PyDict :=
  if driverStarted = false then
    ([], notStartedDict url)
  else
    let u := ensureScheme url
    let dwellTime :=
      if simulateBehavior then simulate_user_behavior durationSeconds scripts pauses
      else durationSeconds
    visit_attempts u dwellTime 0 (MAX_RETRIES + 1) steps

/-! ### `BrowserController.stop` and `TestAutomator.run` (test_automator.py) -/

/-- Embeds `BrowserController.stop`: `if self.driver: try: quit() ... finally:
self.driver = None`.  `quitFails` says whether `driver.quit()` raises; the
result is the final value of `self.driver`. -/
def browser_stop (driver : Option Nat) (quitFails : Bool) : Option Nat :=
  match driver with
  | none => none
  | some _ =>
    match (if quitFails then Except.error "quit error" else Except.ok () :
        Except String Unit) with
    | Except.ok _ => none
    | Except.error _ => none

/-- How one phase of the `run` body terminates: normally, by
`KeyboardInterrupt`, or by another exception. -/
inductive PhaseResult
  | ok
  | keyboard
  | failure (msg : String)
deriving DecidableEq

/-- The milestones of `TestAutomator.run` that the cleanup claim observes. -/
inductive RunAct
  | loadSites
  | createController
  | startBrowser
  | visitLoop
  | saveResults
  | stopController
deriving DecidableEq

/-- Embeds `TestAutomator.run`: the `try` body loads the sites, creates the browser
controller, starts it, runs the visiting loop and saves the results; the
`except KeyboardInterrupt` handler returns 130 (saving partial results when
any activity was logged), the `except Exception` handler returns 1, and the
`finally` block calls `browser_controller.stop()` whenever the controller was
created.  `load` is how `_load_test_sites` ends, `startOk` the result of
`browser_controller.start()`, `main` how the visiting/saving phase ends, and
`hasActivities` whether `self.activities_logged` is non-empty at interrupt
time.  Returns the trace of milestones and the return code. -/
def automator_run (load : PhaseResult) (startOk : Bool) (main : PhaseResult)
    (hasActivities : Bool) : List RunAct × Int :=
  match load with
  | PhaseResult.keyboard => ([RunAct.loadSites], 130)
  | PhaseResult.failure _ => ([RunAct.loadSites], 1)
  | PhaseResult.ok =>
    if startOk = false then
      ([RunAct.loadSites, RunAct.createController, RunAct.startBrowser,
        RunAct.stopController], 1)
    else
      match main with
      | PhaseResult.ok =>
          ([RunAct.loadSites, RunAct.createController, RunAct.startBrowser,
            RunAct.visitLoop, RunAct.saveResults, RunAct.stopController], 0)
      | PhaseResult.keyboard =>
          if hasActivities then
            ([RunAct.loadSites, RunAct.createController, RunAct.startBrowser,
              RunAct.visitLoop, RunAct.saveResults, RunAct.stopController], 130)
          else
            ([RunAct.loadSites, RunAct.createController, RunAct.startBrowser,
              RunAct.visitLoop, RunAct.stopController], 130)
      | PhaseResult.failure _ =>
          ([RunAct.loadSites, RunAct.createController, RunAct.startBrowser,
            RunAct.visitLoop, RunAct.stopController], 1)

/-! ### Helper lemmas -/

theorem dropWhile_eq_self_of_none (p : Char → Bool) (l : List Char)
    (h : ∀ c ∈ l, p c = false) : l.dropWhile p = l := by
  cases l with
  | nil => rfl
  | cons a t => simp [List.dropWhile_cons, h a (List.mem_cons_self a t)]

theorem pyStrip_eq_self (l : List Char) (h : ∀ c ∈ l, pyIsSpace c = false) :
    pyStrip l = l := by
  rw [pyStrip, dropWhile_eq_self_of_none _ _ h, dropWhile_eq_self_of_none, List.reverse_reverse]
  intro c hc
  exact h c (List.mem_reverse.mp hc)

theorem map_eq_self_of_fix (f : Char → Char) (l : List Char) (h : ∀ c ∈ l, f c = c) :
    l.map f = l := by
  induction l with
  | nil => rfl
  | cons a t ih =>
      simp only [List.map_cons, h a (List.mem_cons_self a t), List.cons.injEq, true_and]
      exact ih (fun c hc => h c (List.mem_cons_of_mem a hc))

theorem takeWhile_append_all (p : Char → Bool) (l₁ l₂ : List Char)
    (h : ∀ c ∈ l₁, p c = true) : (l₁ ++ l₂).takeWhile p = l₁ ++ l₂.takeWhile p := by
  induction l₁ with
  | nil => rfl
  | cons a t ih =>
      simp only [List.cons_append, List.takeWhile_cons, h a (List.mem_cons_self a t), if_true,
        List.cons.injEq, true_and]
      exact ih (fun c hc => h c (List.mem_cons_of_mem a hc))

theorem dropWhile_append_all (p : Char → Bool) (l₁ l₂ : List Char)
    (h : ∀ c ∈ l₁, p c = true) : (l₁ ++ l₂).dropWhile p = l₂.dropWhile p := by
  induction l₁ with
  | nil => rfl
  | cons a t ih =>
      simp only [List.cons_append, List.dropWhile_cons, h a (List.mem_cons_self a t), if_true]
      exact ih (fun c hc => h c (List.mem_cons_of_mem a hc))

theorem pyIsSpace_of_digit (c : Char) (h : isDigitChar c = true) : pyIsSpace c = false := by
  simp only [isDigitChar, Bool.and_eq_true, decide_eq_true_eq] at h
  simp only [pyIsSpace, Bool.or_eq_false_iff, decide_eq_false_iff_not]
  omega

theorem lowerChar_of_digit (c : Char) (h : isDigitChar c = true) : lowerChar c = c := by
  simp only [isDigitChar, Bool.and_eq_true, decide_eq_true_eq] at h
  rw [lowerChar, if_neg]
  simp only [Bool.and_eq_true, decide_eq_true_eq, not_and]
  omega

theorem parse_norm_unit (ds : List Char) (u : Char) (h2 : ∀ c ∈ ds, isDigitChar c = true)
    (hu2 : pyIsSpace u = false) (hu3 : lowerChar u = u) :
    (pyStrip (ds ++ [u])).map lowerChar = ds ++ [u] := by
  have hsp : ∀ c ∈ ds ++ [u], pyIsSpace c = false := by
    intro c hc
    rcases List.mem_append.mp hc with h | h
    · exact pyIsSpace_of_digit c (h2 c h)
    · rw [List.mem_singleton.mp h]; exact hu2
  have hlo : ∀ c ∈ ds ++ [u], lowerChar c = c := by
    intro c hc
    rcases List.mem_append.mp hc with h | h
    · exact lowerChar_of_digit c (h2 c h)
    · rw [List.mem_singleton.mp h]; exact hu3
  rw [pyStrip_eq_self _ hsp, map_eq_self_of_fix _ _ hlo]

theorem parse_norm_digits (ds : List Char) (h2 : ∀ c ∈ ds, isDigitChar c = true) :
    (pyStrip ds).map lowerChar = ds := by
  rw [pyStrip_eq_self _ (fun c hc => pyIsSpace_of_digit c (h2 c hc)),
    map_eq_self_of_fix _ _ (fun c hc => lowerChar_of_digit c (h2 c hc))]

theorem matchTimeRe_unit (ds : List Char) (u : Char) (h1 : ds ≠ [])
    (h2 : ∀ c ∈ ds, isDigitChar c = true) (hu1 : isDigitChar u = false)
    (hu2 : pyIsSpace u = false) (hu4 : u = 's' ∨ u = 'm' ∨ u = 'h') :
    matchTimeRe (ds ++ [u]) = some (digitsVal ds, some u) := by
  have htake : (ds ++ [u]).takeWhile isDigitChar = ds := by
    rw [takeWhile_append_all _ _ _ h2]
    simp [List.takeWhile_cons, hu1]
  have hdrop : ((ds ++ [u]).dropWhile isDigitChar).dropWhile pyIsSpace = [u] := by
    rw [dropWhile_append_all _ _ _ h2]
    simp [List.dropWhile_cons, hu1, hu2]
  rw [matchTimeRe]
  simp only [htake, hdrop]
  rw [if_neg]
  · rcases hu4 with h | h | h <;> subst h <;> rfl
  · simp [List.isEmpty_iff, h1]

theorem visit_attempts_head_eq (u : String) (d : ℚ) (a fuel : Nat) (steps : List DriverStep) :
    (visit_attempts u d a (fuel + 1) steps).1.head? = some (Effect.navGet u) := by
  cases steps with
  | nil => simp [visit_attempts]
  | cons s rest =>
    obtain ⟨o, t⟩ := s
    cases o <;> simp [visit_attempts] <;> split <;> simp

theorem successDict_att (u : String) (e : ℚ) (k : Nat) :
    (successDict u e k).lookup "attempts" = some (PyVal.n k) := rfl

theorem timeoutDict_att (u : String) (k : Nat) :
    (timeoutDict u k).lookup "attempts" = some (PyVal.n k) := rfl

theorem errorDict_att (u m : String) (k : Nat) :
    (errorDict u m k).lookup "attempts" = some (PyVal.n k) := rfl

theorem visit_attempts_att (u : String) (d : ℚ) :
    ∀ (fuel a : Nat) (steps : List DriverStep), 1 ≤ fuel → a + fuel = MAX_RETRIES + 1 →
      ∃ k : Nat, (visit_attempts u d a fuel steps).2.lookup "attempts" = some (PyVal.n k) ∧
        a + 1 ≤ k := by
  intro fuel
  induction fuel with
  | zero => intro a steps h _; omega
  | succ n ih =>
    intro a steps _ hsum
    cases steps with
    | nil =>
        refine ⟨a + 1, ?_, le_refl _⟩
        simp [visit_attempts, errorDict_att]
    | cons s rest =>
        obtain ⟨o, t⟩ := s
        cases o with
        | ok =>
            refine ⟨a + 1, ?_, le_refl _⟩
            simp [visit_attempts, successDict_att]
        | timeoutExn =>
            by_cases ha : a < MAX_RETRIES
            · obtain ⟨k, hk, hle⟩ := ih (a + 1) rest
                (by simp [MAX_RETRIES] at ha hsum ⊢; omega)
                (by simp [MAX_RETRIES] at ha hsum ⊢; omega)
              refine ⟨k, ?_, by omega⟩
              simpa [visit_attempts, ha] using hk
            · refine ⟨a + 1, ?_, le_refl _⟩
              simp [visit_attempts, ha, timeoutDict_att]
        | webDriverExn m =>
            by_cases ha : a < MAX_RETRIES
            · obtain ⟨k, hk, hle⟩ := ih (a + 1) rest
                (by simp [MAX_RETRIES] at ha hsum ⊢; omega)
                (by simp [MAX_RETRIES] at ha hsum ⊢; omega)
              refine ⟨k, ?_, by omega⟩
              simpa [visit_attempts, ha] using hk
            · refine ⟨a + 1, ?_, le_refl _⟩
              simp [visit_attempts, ha, errorDict_att]
        | otherExn m =>
            refine ⟨a + 1, ?_, le_refl _⟩
            simp [visit_attempts, errorDict_att]

theorem simLoop_le (dur : ℚ) :
    ∀ (fuel : Nat) (elapsed : ℚ) (scripts : List (Option String)) (pauses : List ℚ),
      elapsed ≤ dur → (simLoop fuel elapsed dur scripts pauses).1 ≤ dur := by
  intro fuel
  induction fuel with
  | zero => intro elapsed scripts pauses h; simpa [simLoop] using h
  | succ n ih =>
    intro elapsed scripts pauses h
    rw [simLoop]
    by_cases hlt : elapsed < dur
    · rw [if_pos hlt]
      cases hs : scripts.headD none with
      | some m => simpa using h
      | none =>
          simp only []
          have hmin : elapsed + min (pauses.headD 2) (dur - elapsed) ≤ dur := by
            have := min_le_right (pauses.headD 2) (dur - elapsed)
            linarith
          by_cases hend : dur ≤ elapsed + min (pauses.headD 2) (dur - elapsed)
          · rw [if_pos hend]; simpa using hmin
          · rw [if_neg hend]
            exact ih _ scripts.tail pauses.tail hmin
    · rw [if_neg hlt]; simpa using h

theorem topUp_eq (dur e : ℚ) (h : e ≤ dur) : topUp dur e = dur := by
  rw [topUp]; split <;> linarith

theorem sim_body_le (dur : ℚ) (scripts : List (Option String)) (pauses : List ℚ)
    (h : 0 ≤ dur) : (sim_body dur scripts pauses).1 ≤ dur := by
  rw [sim_body]
  cases h1 : scripts.headD none with
  | some m => simpa using h
  | none =>
    cases h2 : scripts.tail.headD none with
    | some m => simpa using h
    | none =>
      have hloop := simLoop_le dur 5 0 scripts.tail.tail pauses h
      cases h3 : (simLoop 5 0 dur scripts.tail.tail pauses).2 with
      | some m => simpa [h3] using hloop
      | none =>
          simp only [h3]
          rw [topUp_eq dur _ hloop]

theorem sim_body_none_eq (dur : ℚ) (scripts : List (Option String)) (pauses : List ℚ)
    (h : 0 ≤ dur) (h2 : (sim_body dur scripts pauses).2 = none) :
    (sim_body dur scripts pauses).1 = dur := by
  rw [sim_body] at h2 ⊢
  cases h1 : scripts.headD none with
  | some m => rw [h1] at h2; simp at h2
  | none =>
    rw [h1] at h2
    cases h1b : scripts.tail.headD none with
    | some m => rw [h1b] at h2; simp at h2
    | none =>
      rw [h1b] at h2
      have hloop := simLoop_le dur 5 0 scripts.tail.tail pauses h
      cases h3 : (simLoop 5 0 dur scripts.tail.tail pauses).2 with
      | some m => simp only [h3] at h2; simp at h2
      | none =>
          simp only [h3]
          exact topUp_eq dur _ hloop

theorem simulate_total_eq (dur : ℚ) (scripts : List (Option String)) (pauses : List ℚ)
    (h : 0 ≤ dur) : simulate_user_behavior dur scripts pauses = dur := by
  rw [simulate_user_behavior]
  cases h2 : (sim_body dur scripts pauses).2 with
  | some m =>
      simp only []
      exact topUp_eq dur _ (sim_body_le dur scripts pauses h)
  | none =>
      simp only []
      exact sim_body_none_eq dur scripts pauses h h2

/-! ### Claim theorems -/

/-- Claim C1: for every URL, if the driver is started and `driver.get` raises a
timeout on the first two attempts and the third succeeds, `visit_site` returns
a result with status `success` and `attempts = 3`, sleeping exactly twice for
the fixed 8-second backoff, between the attempts (the trace of navigation and
backoff events is nav, sleep 8, nav, sleep 8, nav). -/
theorem visit_two_timeouts_then_success (url : String) (dur t1 t2 t3 : ℚ) (sb : Bool)
    (scripts : List (Option String)) (pauses : List ℚ) :
    (visit_site true sb url dur [⟨NavOutcome.timeoutExn, t1⟩, ⟨NavOutcome.timeoutExn, t2⟩,
        ⟨NavOutcome.ok, t3⟩] scripts pauses).2.lookup "status" = some (PyVal.s "success") ∧
    (visit_site true sb url dur [⟨NavOutcome.timeoutExn, t1⟩, ⟨NavOutcome.timeoutExn, t2⟩,
        ⟨NavOutcome.ok, t3⟩] scripts pauses).2.lookup "attempts" = some (PyVal.n 3) ∧
    (visit_site true sb url dur [⟨NavOutcome.timeoutExn, t1⟩, ⟨NavOutcome.timeoutExn, t2⟩,
        ⟨NavOutcome.ok, t3⟩] scripts pauses).1.filter (fun e => !isDwellEffect e) =
      [Effect.navGet (ensureScheme url), Effect.retrySleep 8,
       Effect.navGet (ensureScheme url), Effect.retrySleep 8,
       Effect.navGet (ensureScheme url)] :=
  ⟨rfl, rfl, rfl⟩

/-- Claim C2: for every URL, if the driver is started and all 3 attempts raise
a timeout, `visit_site` returns status `timeout` with `attempts = 3` and makes
exactly 3 `driver.get` calls, no matter how the driver would have answered
further attempts. -/
theorem visit_all_attempts_timeout (url : String) (dur t1 t2 t3 : ℚ) (sb : Bool)
    (rest : List DriverStep) (scripts : List (Option String)) (pauses : List ℚ) :
    (visit_site true sb url dur (⟨NavOutcome.timeoutExn, t1⟩ :: ⟨NavOutcome.timeoutExn, t2⟩ ::
        ⟨NavOutcome.timeoutExn, t3⟩ :: rest) scripts pauses).2.lookup "status" =
      some (PyVal.s "timeout") ∧
    (visit_site true sb url dur (⟨NavOutcome.timeoutExn, t1⟩ :: ⟨NavOutcome.timeoutExn, t2⟩ ::
        ⟨NavOutcome.timeoutExn, t3⟩ :: rest) scripts pauses).2.lookup "attempts" =
      some (PyVal.n 3) ∧
    ((visit_site true sb url dur (⟨NavOutcome.timeoutExn, t1⟩ :: ⟨NavOutcome.timeoutExn, t2⟩ ::
        ⟨NavOutcome.timeoutExn, t3⟩ :: rest) scripts pauses).1.filter isNavEffect).length = 3 :=
  ⟨rfl, rfl, rfl⟩

/-- Claim C3 (code evaluation): a successful `visit_site` result carries status
`success` but contains no page-title entry at all — neither a `page_title` nor
a `title` key ever appears in the returned dictionary, contradicting the
spec and the repository's own test `test_visit_site_success`, which asserts
`result['page_title']`. -/
theorem visit_success_lacks_page_title :
    (visit_site true false "example.com" 2 [⟨NavOutcome.ok, 1⟩] [] []).2.lookup "status" =
      some (PyVal.s "success") ∧
    (visit_site true false "example.com" 2 [⟨NavOutcome.ok, 1⟩] [] []).2.lookup "page_title" =
      none ∧
    (visit_site true false "example.com" 2 [⟨NavOutcome.ok, 1⟩] [] []).2.lookup "title" =
      none := by
  decide

/-- Claim C4 counterexample: the URL `ftp://files.example.com` carries a scheme
(it contains the substring `://`), yet `visit_site` does not request it
unchanged — it requests `https://ftp://files.example.com`, because the code
only recognises the prefixes `http://` and `https://`. -/
theorem visit_scheme_counterexample :
    isSubstringOf ("://".toList) ("ftp://files.example.com".toList) = true ∧
    (visit_site true false "ftp://files.example.com" 1 [⟨NavOutcome.ok, 1⟩] [] []).1.head? =
      some (Effect.navGet "https://ftp://files.example.com") ∧
    Effect.navGet "https://ftp://files.example.com" ≠
      Effect.navGet "ftp://files.example.com" := by
  decide

/-- Claim C4 (amended): for every URL, if the driver is started, a URL that
does not start with `http://` or `https://` is requested with the `https://`
prefix prepended, and a URL that does start with `http://` or `https://` is
requested unchanged. -/
theorem visit_scheme_normalization (url : String) (dur : ℚ) (sb : Bool)
    (steps : List DriverStep) (scripts : List (Option String)) (pauses : List ℚ) :
    (¬ (startsWithStr url "http://" = true ∨ startsWithStr url "https://" = true) →
      (visit_site true sb url dur steps scripts pauses).1.head? =
        some (Effect.navGet ("https://" ++ url))) ∧
    ((startsWithStr url "http://" = true ∨ startsWithStr url "https://" = true) →
      (visit_site true sb url dur steps scripts pauses).1.head? =
        some (Effect.navGet url)) := by
  constructor <;> intro h
  · have hb : ensureScheme url = "https://" ++ url := by
      rw [ensureScheme, if_neg]
      simp only [Bool.or_eq_true]
      exact h
    have := visit_attempts_head_eq (ensureScheme url)
      (if sb then simulate_user_behavior dur scripts pauses else dur) 0 2 steps
    simpa [visit_site, hb] using this
  · have hb : ensureScheme url = url := by
      rw [ensureScheme, if_pos]
      simpa only [Bool.or_eq_true] using h
    have := visit_attempts_head_eq (ensureScheme url)
      (if sb then simulate_user_behavior dur scripts pauses else dur) 0 2 steps
    simpa [visit_site, hb] using this

/-- Claim C4 witness: instantiation at the scheme-less URL `example.com`. -/
theorem visit_scheme_normalization_witness :
    (visit_site true false "example.com" 5 [] [] []).1.head? =
      some (Effect.navGet ("https://" ++ "example.com")) :=
  (visit_scheme_normalization "example.com" 5 false [] [] []).1 (by decide)

/-- Claim C5 counterexample: on the spec's end-to-end configuration,
`get_all_sites` does not return the `https://`-prefixed URLs claimed by the
spec. -/
theorem get_all_sites_counterexample :
    get_all_sites demoConfig ≠ [("https://a.com", "Dev"), ("https://b.com", "Dev")] := by
  decide

/-- Claim C5 (amended): on the configuration with browser categories
`Dev -> [a.com, b.com]` and `Browser Internal -> [x_internal]`,
`get_all_sites` returns exactly `[(a.com, Dev), (b.com, Dev)]` — the system
category is dropped, but the URLs are returned exactly as written in the
configuration, without any scheme normalization (the `https://` prefix is
added later, inside `visit_site`). -/
theorem get_all_sites_demo :
    get_all_sites demoConfig = [("a.com", "Dev"), ("b.com", "Dev")] := by
  decide

/-- Claim C6 counterexample: `get_sites_by_category` does return entries for
the reserved category `System/Security`, and the entry it returns contains the
recognized lock-screen marker `loginwindow`. -/
theorem get_sites_by_category_counterexample :
    get_sites_by_category reservedConfig "System/Security" = ["loginwindow"] ∧
    hasMarker ALL_SITES_MARKERS "loginwindow" = true ∧
    "System/Security" ∈ SYSTEM_CATEGORIES := by
  decide

/-- Claim C6 (amended): `get_all_sites` never returns a pair whose category is
reserved or whose URL contains any of the eleven markers (internal pages,
extension pages, lock-screen pages), while `get_sites_by_category` only
guarantees the absence of the seven browser-internal and extension markers: it
excludes neither the reserved categories nor the lock-screen and
system-security markers. -/
theorem catalog_marker_filtering (cats : List (String × List String)) (name : String) :
    (∀ u ∈ get_sites_by_category cats name, hasMarker CATEGORY_MARKERS u = false) ∧
    (∀ p ∈ get_all_sites cats, p.2 ∉ SYSTEM_CATEGORIES ∧
      hasMarker ALL_SITES_MARKERS p.1 = false) := by
  constructor
  · intro u hu
    rw [get_sites_by_category] at hu
    cases h : cats.lookup name with
    | none => rw [h] at hu; simp at hu
    | some urls =>
        rw [h] at hu
        have := List.of_mem_filter hu
        simpa using this
  · intro p hp
    rw [get_all_sites] at hp
    obtain ⟨q, hq, hpq⟩ := List.mem_flatMap.mp hp
    by_cases hs : q.1 ∈ SYSTEM_CATEGORIES
    · rw [if_pos hs] at hpq; simp at hpq
    · rw [if_neg hs] at hpq
      obtain ⟨u, hu, rfl⟩ := List.mem_map.mp hpq
      have := List.of_mem_filter hu
      exact ⟨hs, by simpa using this⟩

/-- Claim C6 witness: instantiation on the demo configuration. -/
theorem catalog_marker_filtering_witness :
    ("a.com" ∈ get_sites_by_category demoConfig "Dev") ∧
    hasMarker CATEGORY_MARKERS "a.com" = false :=
  ⟨by decide, (catalog_marker_filtering demoConfig "Dev").1 "a.com" (by decide)⟩

/-- Claim C7 counterexample: the result `visit_site` returns when the browser
is not started has no `attempts` entry at all (its keys are `url`, `status`,
`error`, `duration`). -/
theorem visit_not_started_no_attempts :
    (visit_site false false "example.com" 1 [] [] []).2.lookup "attempts" = none ∧
    (visit_site false false "example.com" 1 [] [] []).2.lookup "status" =
      some (PyVal.s "error") ∧
    (visit_site false false "example.com" 1 [] [] []).2.lookup "error" =
      some (PyVal.s "Browser not started") := by
  decide

/-- Claim C7 (amended): whenever the driver is started, every result
dictionary `visit_site` returns — success, timeout, and error outcomes alike,
for every driver behavior — carries an `attempts` entry whose value is at
least 1; only the browser-not-started result lacks the field. -/
theorem visit_attempts_at_least_one (sb : Bool) (url : String) (dur : ℚ)
    (steps : List DriverStep) (scripts : List (Option String)) (pauses : List ℚ) :
    ∃ k : Nat, (visit_site true sb url dur steps scripts pauses).2.lookup "attempts" =
      some (PyVal.n k) ∧ 1 ≤ k := by
  obtain ⟨k, hk, hle⟩ := visit_attempts_att (ensureScheme url)
    (if sb then simulate_user_behavior dur scripts pauses else dur) (MAX_RETRIES + 1) 0 steps
    (by simp [MAX_RETRIES]) (by simp)
  exact ⟨k, by simpa [visit_site] using hk, by omega⟩

/-- Claim C8: for every non-negative dwell duration, if a driver call inside
the behavior simulation raises an exception at any point (the `try` body of
`_simulate_user_behavior` ends with a pending exception), the simulation still
consumes exactly the dwell duration — the exception is caught and the
remaining time is slept out — and the enclosing `visit_site` call still
returns a result with status `success`. -/
theorem simulation_error_is_swallowed (dur : ℚ) (scripts : List (Option String))
    (pauses : List ℚ) (url : String) (t : ℚ) (rest : List DriverStep) (m : String)
    (hd : 0 ≤ dur) (he : (sim_body dur scripts pauses).2 = some m) :
    simulate_user_behavior dur scripts pauses = dur ∧
    (visit_site true true url dur (⟨NavOutcome.ok, t⟩ :: rest) scripts pauses).2.lookup
      "status" = some (PyVal.s "success") :=
  ⟨simulate_total_eq dur scripts pauses hd, rfl⟩

/-- Claim C8 witness: a simulation whose first `execute_script` call raises. -/
theorem simulation_error_is_swallowed_witness :
    simulate_user_behavior 4 [some "boom"] [] = 4 ∧
    (visit_site true true "x.com" 4 [⟨NavOutcome.ok, 1⟩] [some "boom"] []).2.lookup
      "status" = some (PyVal.s "success") :=
  simulation_error_is_swallowed 4 [some "boom"] [] "x.com" 1 [] "boom" (by norm_num) rfl

/-- Claim C9: on every exit path of `TestAutomator.run` — normal completion,
an exception, or keyboard interruption, with or without a successful browser
start — if the browser controller was created, its `stop` method is the last
action before `run` returns; and `stop` always leaves the driver handle
`None`, even when `driver.quit()` itself raises. -/
theorem run_cleanup_on_every_exit (load : PhaseResult) (startOk : Bool)
    (main : PhaseResult) (hasActivities : Bool) :
    (RunAct.createController ∈ (automator_run load startOk main hasActivities).1 →
      (automator_run load startOk main hasActivities).1.getLast? =
        some RunAct.stopController) ∧
    (∀ (d : Option Nat) (q : Bool), browser_stop d q = none) := by
  constructor
  · cases load <;> cases startOk <;> cases main <;> cases hasActivities <;> intro hmem <;>
      simp [automator_run] at hmem ⊢
  · intro d q
    cases d <;> cases q <;> rfl

/-- Claim C9 witness: a run whose main phase raises, with a failing quit. -/
theorem run_cleanup_on_every_exit_witness :
    (automator_run PhaseResult.ok true (PhaseResult.failure "boom") false).1.getLast? =
      some RunAct.stopController ∧
    browser_stop (some 0) true = none :=
  ⟨(run_cleanup_on_every_exit PhaseResult.ok true (PhaseResult.failure "boom") false).1
      (by decide),
   (run_cleanup_on_every_exit PhaseResult.ok true (PhaseResult.failure "boom") false).2
      (some 0) true⟩

/-- Claim C10: for every non-empty decimal digit string N, `_parse_time_format`
maps the string N followed by `s` to `max 1 (N div 60)` minutes (seconds below
60 become 1 minute, larger values are floored to whole minutes), the bare
digit string and the `m`-suffixed form to N minutes, and the `h`-suffixed form
to N * 60 minutes. -/
theorem parse_time_format_units (ds : List Char) (h1 : ds ≠ [])
    (h2 : ∀ c ∈ ds, isDigitChar c = true) :
    parse_time_format (ds ++ ['s']) = some (max 1 (digitsVal ds / 60)) ∧
    parse_time_format ds = some (digitsVal ds) ∧
    parse_time_format (ds ++ ['m']) = some (digitsVal ds) ∧
    parse_time_format (ds ++ ['h']) = some (digitsVal ds * 60) := by
  have hball : ∀ (u : Char), isDigitChar u = false →
      ((ds ++ [u]).all isDigitChar) = false := by
    intro u hu
    simp [List.all_append, hu]
  refine ⟨?_, ?_, ?_, ?_⟩
  · have hm := matchTimeRe_unit ds 's' h1 h2 (by decide) (by decide) (Or.inl rfl)
    rw [parse_time_format]
    simp only [parse_norm_unit ds 's' h2 (by decide) (by decide), hball 's' (by decide),
      Bool.and_false, hm]
    rfl
  · rw [parse_time_format]
    simp only [parse_norm_digits ds h2]
    rw [if_pos]
    simp [List.all_eq_true.mpr h2, List.isEmpty_iff, h1]
  · have hm := matchTimeRe_unit ds 'm' h1 h2 (by decide) (by decide) (Or.inr (Or.inl rfl))
    rw [parse_time_format]
    simp only [parse_norm_unit ds 'm' h2 (by decide) (by decide), hball 'm' (by decide),
      Bool.and_false, hm]
    rfl
  · have hm := matchTimeRe_unit ds 'h' h1 h2 (by decide) (by decide) (Or.inr (Or.inr rfl))
    rw [parse_time_format]
    simp only [parse_norm_unit ds 'h' h2 (by decide) (by decide), hball 'h' (by decide),
      Bool.and_false, hm]
    rfl

/-- Claim C10 witness: the digit string 90, so that `90s` parses to 1 minute,
`90` and `90m` to 90 minutes, and `90h` to 5400 minutes. -/
theorem parse_time_format_units_witness :
    parse_time_format (['9', '0'] ++ ['s']) = some (max 1 (digitsVal ['9', '0'] / 60)) ∧
    parse_time_format ['9', '0'] = some (digitsVal ['9', '0']) ∧
    parse_time_format (['9', '0'] ++ ['m']) = some (digitsVal ['9', '0']) ∧
    parse_time_format (['9', '0'] ++ ['h']) = some (digitsVal ['9', '0'] * 60) :=
  parse_time_format_units ['9', '0'] (by decide) (by decide)
